import Mathlib

/-!
Verification development for the active-apps-monitor repository.

The repository ships a Windows activity monitor (State Tracker, Event
Emitter, Log Writer, Session Builder) plus a thin web layer (Flask API and
a React frontend).  The monitor core (`windowslogger.py`,
`simple_monitor.py` and the statistics endpoints of `api.py`) is not part
of the source snapshot; only its documentation, its PowerShell launchers
and the frontend sources are.  Definitions for the monitor core are
therefore modelled from the design specification, as marked in their doc
comments; the frontend definitions are embedded directly from the JSX
sources under `frontend/src/`.
-/

namespace ActiveAppsMonitor

/-! ## Data model of the monitor (spec §3) -/

/-- Modelled from the spec: foreground-app descriptor of a Sample
(`{pid, processName, windowTitle}`, spec §3), from the missing
`windowslogger.py`. -/
structure Fg where
  pid : Nat
  name : String
  title : String
  deriving Repr, DecidableEq

/-- Modelled from the spec: per-process descriptor of a Sample
(`{pid, name, owner, startTime}`, spec §3), from the missing
`windowslogger.py`.  The pid is kept as the key of the association list. -/
structure Proc where
  name : String
  user : String
  startedAt : Nat
  deriving Repr, DecidableEq

/-- Modelled from the spec: one transient polling reading (spec §3),
from the missing `windowslogger.py`. -/
structure Sample where
  ts : Nat
  foreground : Option Fg
  procs : List (Nat × Proc)
  deriving Repr

/-- Modelled from the spec: monitor modes `{active, process, both}`
(spec §6), from the missing `windowslogger.py` argument handling. -/
inductive Mode
  | active
  | process
  | both
  deriving Repr, DecidableEq

/-- Modelled from the spec: the startup configuration surface (spec §6),
from the missing `windowslogger.py` argument handling. -/
structure Config where
  mode : Mode
  interval : Rat
  heartbeat : Int
  includeSystem : Bool
  snapshot : Bool
  rotate : Bool
  deriving Repr, DecidableEq

/-- Modelled from the spec: the defaults of the configuration surface
(spec §6: mode `active`, interval `2.0`, heartbeat `300`, includeSystem
`false`, snapshot `false`, rotate `true`), from the missing
`windowslogger.py`; they agree with the `param` blocks of
`scripts/start-windowslogger.ps1` and `scripts/register-startup-task.ps1`. -/
def defaultConfig : Config :=
  { mode := Mode.active, interval := 2, heartbeat := 300,
    includeSystem := false, snapshot := false, rotate := true }

/-- Modelled from the spec: validation of the `--mode` option, which
accepts exactly `active`, `process` and `both` (spec §6), from the missing
`windowslogger.py`; mirrored by `ValidateSet("active","process","both")`
in the PowerShell launchers. -/
def parseMode (s : String) : Option Mode :=
  if s = "active" then some Mode.active
  else if s = "process" then some Mode.process
  else if s = "both" then some Mode.both
  else none

/-- The `ValidateSet` list of the `param` blocks in
`scripts/start-windowslogger.ps1` and `scripts/register-startup-task.ps1`. -/
def psValidModes : List String := ["active", "process", "both"]

/-- Default `-Mode` of the PowerShell launchers (source, `param` blocks). -/
def psDefaultMode : String := "active"

/-- Default `-Interval` of the PowerShell launchers (source, `param` blocks). -/
def psDefaultInterval : Rat := 2

/-- Default `-Heartbeat` of the PowerShell launchers (source, `param` blocks). -/
def psDefaultHeartbeat : Rat := 300

/-- Modelled from the spec: in-memory monitor state (spec §3
`MonitorState`), from the missing `windowslogger.py`. -/
structure MonitorState where
  lastActiveApp : Option Fg
  lastProcessSet : List (Nat × Proc)
  lastHeartbeatAt : Nat
  deriving Repr

/-! ## State Tracker (spec §4.2) -/

/-- OS-reserved process names treated as system-owned (README: processes
like System and Registry are ignored). -/
def systemNames : List String := ["System", "Registry"]

/-- Modelled from the spec: system-owned process test used for the
`includeSystem` filter (spec §4.2), from the missing `windowslogger.py`. -/
def isSystemProc (p : Proc) : Bool :=
  systemNames.contains p.name

/-- Modelled from the spec: the process set the tracker actually follows;
unless `includeSystem`, system-owned processes are excluded from both the
tracked set and edge generation (spec §4.2). -/
def trackedProcs (cfg : Config) (s : Sample) : List (Nat × Proc) :=
  if cfg.includeSystem then s.procs
  else s.procs.filter (fun kv => !(isSystemProc kv.2))

/-- The pid keys of a process association list. -/
def keysOf (l : List (Nat × Proc)) : List Nat := l.map Prod.fst

/-- Modelled from the spec: the edge events a State Tracker step can emit
(spec §4.2), from the missing `windowslogger.py`.  `activeWin` carries a
flag marking the heartbeat-flavored re-emission. -/
inductive Edge
  | activeWin (fg : Fg) (isHb : Bool) (ts : Nat)
  | procStart (pid : Nat) (p : Proc)
  | procEnd (pid : Nat) (p : Proc)
  | snapshotHeader (count : Nat)
  | procEntry (pid : Nat) (p : Proc)
  deriving Repr, DecidableEq

/-- Whether a mode runs the active-window rules (spec §4.2). -/
def activeModeOn : Mode → Bool
  | Mode.active => true
  | Mode.both => true
  | Mode.process => false

/-- Whether a mode runs the process rules (spec §4.2). -/
def processModeOn : Mode → Bool
  | Mode.process => true
  | Mode.both => true
  | Mode.active => false

/-- Modelled from the spec: the heartbeat clock test — a heartbeat fires
only when the configured value is positive (≤ 0 disables, spec §6) and the
interval elapsed since `lastHeartbeatAt` (spec §4.2). -/
def heartbeatDue (cfg : Config) (st : MonitorState) (ts : Nat) : Bool :=
  decide (0 < cfg.heartbeat) &&
    decide (cfg.heartbeat ≤ (ts : Int) - (st.lastHeartbeatAt : Int))

/-- Modelled from the spec: active-mode edges of one tracker step
(spec §4.2): a foreground pid change emits an `active_window` edge; an
unchanged pid emits a heartbeat-flavored edge only when the heartbeat
interval elapsed. -/
def activeEdgesOf (cfg : Config) (st : MonitorState) (s : Sample) : List Edge :=
  if activeModeOn cfg.mode then
    match s.foreground with
    | none => []
    | some fg =>
      match st.lastActiveApp with
      | none => [Edge.activeWin fg false s.ts]
      | some prev =>
        if prev.pid = fg.pid then
          if heartbeatDue cfg st s.ts then [Edge.activeWin fg true s.ts] else []
        else [Edge.activeWin fg false s.ts]
  else []

/-- Modelled from the spec: `proc_end` edges of one tracker step — keys
present only in the old tracked set (spec §4.2). -/
def procEndEdgesOf (cfg : Config) (st : MonitorState) (s : Sample) : List Edge :=
  if processModeOn cfg.mode then
    (st.lastProcessSet.filter
        (fun kv => !(decide (kv.1 ∈ keysOf (trackedProcs cfg s))))).map
      (fun kv => Edge.procEnd kv.1 kv.2)
  else []

/-- Modelled from the spec: `proc_start` edges of one tracker step — keys
present only in the new tracked set (spec §4.2). -/
def procStartEdgesOf (cfg : Config) (st : MonitorState) (s : Sample) : List Edge :=
  if processModeOn cfg.mode then
    ((trackedProcs cfg s).filter
        (fun kv => !(decide (kv.1 ∈ keysOf st.lastProcessSet)))).map
      (fun kv => Edge.procStart kv.1 kv.2)
  else []

/-- Modelled from the spec: optional snapshot edges — one header with a
count plus one `proc` edge per tracked process (spec §4.2). -/
def snapshotEdgesOf (cfg : Config) (_st : MonitorState) (s : Sample) : List Edge :=
  if processModeOn cfg.mode && cfg.snapshot then
    Edge.snapshotHeader (trackedProcs cfg s).length ::
      (trackedProcs cfg s).map (fun kv => Edge.procEntry kv.1 kv.2)
  else []

/-- Modelled from the spec: one State Tracker step, a pure function
`(previousState, newSample) -> (nextState, edge list)` (spec §4.2); edges
come out in the fixed tie-break order: active/heartbeat edges first, then
`proc_end`, then `proc_start`, then snapshot edges. -/
def trackStep (cfg : Config) (st : MonitorState) (s : Sample) :
    MonitorState × List Edge :=
  let edges :=
    activeEdgesOf cfg st s ++ procEndEdgesOf cfg st s ++
      procStartEdgesOf cfg st s ++ snapshotEdgesOf cfg st s
  let nextActive :=
    if activeModeOn cfg.mode then
      match s.foreground with
      | some fg => some fg
      | none => st.lastActiveApp
    else st.lastActiveApp
  let nextHb :=
    if activeModeOn cfg.mode then
      match s.foreground with
      | some fg =>
        match st.lastActiveApp with
        | some prev =>
          if prev.pid = fg.pid ∧ heartbeatDue cfg st s.ts then s.ts
          else st.lastHeartbeatAt
        | none => st.lastHeartbeatAt
      | none => st.lastHeartbeatAt
    else st.lastHeartbeatAt
  let nextProcs :=
    if processModeOn cfg.mode then trackedProcs cfg s else st.lastProcessSet
  ({ lastActiveApp := nextActive, lastProcessSet := nextProcs,
     lastHeartbeatAt := nextHb }, edges)

/-- Modelled from the spec: the polling loop — fold the tracker over an
ordered sample sequence, concatenating the emitted edges (spec §4.5). -/
def runTracker (cfg : Config) (st : MonitorState) :
    List Sample → MonitorState × List Edge
  | [] => (st, [])
  | s :: rest =>
    let step := trackStep cfg st s
    let next := runTracker cfg step.1 rest
    (next.1, step.2 ++ next.2)

/-- Is this edge a `proc_start` edge for the given pid? -/
def isStartFor (pid : Nat) : Edge → Bool
  | Edge.procStart q _ => q == pid
  | _ => false

/-- Is this edge a `proc_end` edge for the given pid? -/
def isEndFor (pid : Nat) : Edge → Bool
  | Edge.procEnd q _ => q == pid
  | _ => false

/-- Is this an active-window (possibly heartbeat-flavored) edge? -/
def isActiveEdge : Edge → Bool
  | Edge.activeWin _ _ _ => true
  | _ => false

/-- Is this a `proc_end` edge? -/
def isEndEdge : Edge → Bool
  | Edge.procEnd _ _ => true
  | _ => false

/-- Is this a `proc_start` edge? -/
def isStartEdge : Edge → Bool
  | Edge.procStart _ _ => true
  | _ => false

/-- Is this a snapshot edge (header or per-process entry)? -/
def isSnapEdge : Edge → Bool
  | Edge.snapshotHeader _ => true
  | Edge.procEntry _ _ => true
  | _ => false

/-- Is this a heartbeat-flavored edge? -/
def isHeartbeatEdge : Edge → Bool
  | Edge.activeWin _ hb _ => hb
  | _ => false

/-! ## Session Builder (spec §4.4) -/

/-- Modelled from the spec: event types of persisted records (spec §3),
from the missing session-builder component. -/
inductive EType
  | activeWindow
  | procStart
  | procEnd
  | procSnapshot
  | heartbeat
  deriving Repr, DecidableEq

/-- Modelled from the spec: a persisted event as the Session Builder sees
it — timestamp, type, and the pid/name fields relevant to session
reconstruction (spec §3, §4.4), from the missing session-builder
component. -/
structure Event where
  ts : Nat
  etype : EType
  pid : Nat
  name : String
  deriving Repr, DecidableEq

/-- Modelled from the spec: a derived usage session — app name, start,
and a nullable end (spec §3), from the missing session-builder
component. -/
structure Session where
  appName : String
  start : Nat
  stop : Option Nat
  deriving Repr, DecidableEq

/-- Modelled from the spec: `durationSeconds` is undefined while open and
`end - start` on close (spec §4.4). -/
def durationSeconds (s : Session) : Option Nat :=
  s.stop.map (fun e => e - s.start)

/-- Modelled from the spec: one currently-`OPEN` per-app session of the
builder state machine (spec §4.4), remembering the opening pid so a
`proc_end` for that pid closes it. -/
structure OpenSess where
  app : String
  pid : Nat
  start : Nat
  deriving Repr, DecidableEq

/-- Modelled from the spec: the replay state of the Session Builder — the
`OPEN` sessions (at most one per app name), the currently focused app, and
the closed sessions accumulated so far (spec §4.4). -/
structure SBState where
  opens : List OpenSess
  focus : Option String
  closed : List Session
  deriving Repr, DecidableEq

/-- The initial (all-`CLOSED`) builder state. -/
def initSB : SBState := { opens := [], focus := none, closed := [] }

/-- Close the first `OPEN` session satisfying the predicate at time `ts`,
returning the remaining opens and the closed session, if any. -/
def closeFirst (p : OpenSess → Bool) (ts : Nat) :
    List OpenSess → List OpenSess × Option Session
  | [] => ([], none)
  | o :: rest =>
    if p o then (rest, some { appName := o.app, start := o.start, stop := some ts })
    else
      let r := closeFirst p ts rest
      (o :: r.1, r.2)

/-- Modelled from the spec: the `OPEN → CLOSED` transition of the builder
state machine (spec §4.4) for the first open session matching the
predicate. -/
def closeBy (p : OpenSess → Bool) (ts : Nat) (st : SBState) : SBState :=
  let r := closeFirst p ts st.opens
  match r.2 with
  | some sess => { st with opens := r.1, closed := sess :: st.closed }
  | none => st

/-- Modelled from the spec: the `CLOSED → OPEN` transition — open a
session for the app unless one is already open (spec §4.4). -/
def openApp (app : String) (pid ts : Nat) (st : SBState) : SBState :=
  if st.opens.any (fun o => o.app == app) then st
  else { st with opens := { app := app, pid := pid, start := ts } :: st.opens }

/-- Modelled from the spec: one Session Builder transition on one event
(spec §4.4): `active_window`/`proc_start` opens the session of the app; a
`proc_end` for the opening pid closes it; an `active_window` switching
focus to a different app closes the session of the previously focused app. -/
def stepSB (st : SBState) (e : Event) : SBState :=
  match e.etype with
  | EType.activeWindow =>
    let st1 :=
      match st.focus with
      | some b => if b = e.name then st else closeBy (fun o => o.app == b) e.ts st
      | none => st
    let st2 := openApp e.name e.pid e.ts st1
    { st2 with focus := some e.name }
  | EType.procStart => openApp e.name e.pid e.ts st
  | EType.procEnd => closeBy (fun o => o.pid == e.pid) e.ts st
  | _ => st

/-- Modelled from the spec: replay an ordered event sequence through the
Session Builder and report all sessions — the closed ones in order of
closing, then the still-open ones with `end = null` (spec §4.4). -/
def buildSessions (evs : List Event) : List Session :=
  let fin := evs.foldl stepSB initSB
  fin.closed.reverse ++
    fin.opens.reverse.map
      (fun o => { appName := o.app, start := o.start, stop := none })

/-- Modelled from the spec: per-app aggregate statistics (spec §4.4):
launch count, total closed duration, closed-session count, and the
average guarded against a zero divisor. -/
structure AppStats where
  launchCount : Nat
  totalDurationSec : Nat
  closedSessionCount : Nat
  avgDurationSec : Rat
  deriving Repr, DecidableEq

/-- Modelled from the spec: compute the aggregate statistics of one app from a
replayed event sequence (spec §4.4): `launchCount` counts opens,
`totalDurationSec` sums closed sessions only, and `avgDurationSec` is
`totalDurationSec / closedSessionCount` with `0` when there is no closed
session (never divide-by-zero). -/
def statsFor (evs : List Event) (app : String) : AppStats :=
  let ss := (buildSessions evs).filter (fun s => s.appName == app)
  let closedDurs := ss.filterMap (fun s => s.stop.map (fun e => e - s.start))
  let total := closedDurs.foldl (fun a b => a + b) 0
  let cnt := closedDurs.length
  { launchCount := ss.length, totalDurationSec := total,
    closedSessionCount := cnt,
    avgDurationSec := if cnt = 0 then 0 else (total : Rat) / (cnt : Rat) }

/-- Modelled from the spec: one full replay of a closed log segment — the
aggregate statistics of each app of interest (spec §8, idempotence
property). -/
def replayAggregates (seg : List Event) (apps : List String) :
    List (String × AppStats) :=
  apps.map (fun a => (a, statsFor seg a))

/-! ## Log Writer rotation (spec §4.3, §6; README of the simple monitor) -/

/-- Modelled from the spec: rotation configuration of the Log Writer —
enabled flag, rotation interval in seconds, and max segment size
(spec §4.3), from the missing `windowslogger.py`/`simple_monitor.py`. -/
structure RotateConfig where
  enabled : Bool
  intervalSec : Nat
  maxSizeBytes : Nat
  deriving Repr, DecidableEq

/-- Modelled from the spec: default rotation — enabled, hourly interval
(spec §4.3 default hourly; README: the simple monitor rotates the log file
every hour). The default max size bound is left at the documented rotating
file handler limit of 10 MB. -/
def defaultRotate : RotateConfig :=
  { enabled := true, intervalSec := 3600, maxSizeBytes := 10485760 }

/-- Modelled from the spec: the rotation trigger — configured interval
elapsed OR max size reached, whichever first; never when rotation is
disabled (spec §4.3). -/
def shouldRotate (cfg : RotateConfig) (elapsedSec sizeBytes : Nat) : Bool :=
  cfg.enabled &&
    (decide (cfg.intervalSec ≤ elapsedSec) || decide (cfg.maxSizeBytes ≤ sizeBytes))

/-- Modelled from the spec: a broken-down local wall-clock time used in
the rotated-segment suffix. -/
structure WallTime where
  year : Nat
  month : Nat
  day : Nat
  hour : Nat
  minute : Nat
  second : Nat
  deriving Repr, DecidableEq

/-- Zero-pad a number to two digits. -/
def pad2 (n : Nat) : String :=
  if n < 10 then "0" ++ toString n else toString n

/-- Modelled from the spec: the `YYYY-MM-DD_HH-MM-SS` timestamp suffix of
a rotated segment (spec §6). -/
def rotationStamp (t : WallTime) : String :=
  toString t.year ++ "-" ++ pad2 t.month ++ "-" ++ pad2 t.day ++ "_" ++
    pad2 t.hour ++ "-" ++ pad2 t.minute ++ "-" ++ pad2 t.second

/-- Modelled from the spec: a closed segment is renamed to
`<basename>.<YYYY-MM-DD_HH-MM-SS>` (spec §6). -/
def rotatedSegmentName (basename : String) (t : WallTime) : String :=
  basename ++ "." ++ rotationStamp t

/-- Modelled from the spec: the archive of a rotated segment is the same
name with `.zip` appended (spec §6; README: archived logs are
`monitor.log.YYYY-MM-DD_HH-MM-SS.zip`). -/
def archiveName (basename : String) (t : WallTime) : String :=
  rotatedSegmentName basename t ++ ".zip"

/-! ## Frontend: Login component (`frontend/src/Login.jsx`) -/

/-- The JSON payload of a successful `/api/login` response
(`Login.jsx`, `data.token` / `data.user_id` / `data.name` / `data.role`). -/
structure LoginData where
  token : String
  userId : String
  uname : String
  role : String
  deriving Repr, DecidableEq

/-- Outcome of the `fetch` in `Login.jsx` `handleSubmit`: an OK response
with parsed data, a non-OK response with an optional `data.error`, or a
thrown network error. -/
inductive LoginResp
  | respOk (data : LoginData)
  | respErr (msg : Option String)
  | networkErr
  deriving Repr, DecidableEq

/-- Component state of `Login.jsx` relevant to `handleSubmit`. -/
structure LoginState where
  isRegister : Bool
  password : String
  error : String
  message : String
  deriving Repr, DecidableEq

/-- Side effects of one `handleSubmit` run: the arguments of every
`setToken` call and every `localStorage.setItem` write, in order. -/
structure SubmitEffects where
  setTokenCalls : List String
  storeWrites : List (String × String)
  deriving Repr, DecidableEq

/-- `handleSubmit` of `Login.jsx` (lines 12-49): clear error and message;
on OK while registering, show the registration message, switch to login
mode and clear the password (no `setToken`, no `localStorage` write); on
OK while logging in, call `setToken` and write token, user_id, name and
role; on a non-OK response set the error; on a network failure set the
network error. -/
def handleSubmit (st : LoginState) (resp : LoginResp) :
    LoginState × SubmitEffects :=
  let st0 := { st with error := "", message := "" }
  match resp with
  | LoginResp.respOk data =>
    if st0.isRegister then
      ({ st0 with message := "Registration successful! Please log in.",
                  isRegister := false, password := "" },
       { setTokenCalls := [], storeWrites := [] })
    else
      (st0,
       { setTokenCalls := [data.token],
         storeWrites :=
           [("token", data.token), ("user_id", data.userId),
            ("name", data.uname), ("role", data.role)] })
  | LoginResp.respErr m =>
    ({ st0 with error := m.getD "Action failed" },
     { setTokenCalls := [], storeWrites := [] })
  | LoginResp.networkErr =>
    ({ st0 with error := "Network error. Please try again." },
     { setTokenCalls := [], storeWrites := [] })

/-! ## Frontend: dashboards and logout (`frontend/src/UserDashboard.jsx`,
`frontend/src/AdminDashboard.jsx`, App component) -/

/-- The browser-side state the dashboard handlers touch: the App `token`
state, the `localStorage` contents, the dashboard error message, and the
fetched data. -/
structure WebApp where
  token : Option String
  store : List (String × String)
  errorMsg : String
  logs : List String
  reports : List String
  deriving Repr, DecidableEq

/-- `localStorage.removeItem`: drop every entry for the key. -/
def removeItem (k : String) (s : List (String × String)) :
    List (String × String) :=
  s.filter (fun kv => !(kv.1 == k))

/-- `localStorage.getItem`: first value stored for the key, if any. -/
def storeGet (k : String) (s : List (String × String)) : Option String :=
  (s.find? (fun kv => kv.1 == k)).map Prod.snd

/-- `handleLogout` of the App component (UserDashboard.jsx file,
lines 75-81): `setToken(null)` and remove the `token`, `user_id`, `name`
and `role` keys from `localStorage`. -/
def handleLogout (w : WebApp) : WebApp :=
  { w with token := none,
           store :=
             removeItem "role" (removeItem "name"
               (removeItem "user_id" (removeItem "token" w.store))) }

/-- Outcome of a dashboard data fetch: OK with data, a non-OK HTTP
status, or a thrown network error. -/
inductive FetchResp
  | respOk (data : List String)
  | httpStatus (status : Nat)
  | networkErr
  deriving Repr, DecidableEq

/-- `fetchLogs` of `UserDashboard.jsx` (lines 11-32): OK stores the logs;
HTTP 401 invokes `handleLogout`; any other non-OK status sets the error;
a network failure sets the connection error. -/
def fetchLogsStep (w : WebApp) (resp : FetchResp) : WebApp :=
  match resp with
  | FetchResp.respOk data => { w with logs := data }
  | FetchResp.httpStatus n =>
    if n = 401 then handleLogout w
    else { w with errorMsg := "Failed to fetch logs" }
  | FetchResp.networkErr => { w with errorMsg := "Error connecting to server" }

/-- `fetchAdminReports` of `AdminDashboard.jsx` (lines 21-42): OK stores
the reports; HTTP 401 or 403 invokes `handleLogout`; any other non-OK
status sets the error; a network failure sets the connection error. -/
def fetchAdminReportsStep (w : WebApp) (resp : FetchResp) : WebApp :=
  match resp with
  | FetchResp.respOk data => { w with reports := data }
  | FetchResp.httpStatus n =>
    if n = 401 ∨ n = 403 then handleLogout w
    else { w with errorMsg := "Failed to fetch admin reports" }
  | FetchResp.networkErr => { w with errorMsg := "Error connecting to server" }

/-- The App component renders the Login screen exactly when `token` is
null (UserDashboard.jsx file, lines 83-85). -/
def showsLogin (w : WebApp) : Bool := w.token.isNone

/-! ## Helper lemmas about the edge lists of the tracker -/

theorem mem_activeEdgesOf_isActive {cfg : Config} {st : MonitorState}
    {s : Sample} {e : Edge} (h : e ∈ activeEdgesOf cfg st s) :
    isActiveEdge e = true := by
  unfold activeEdgesOf at h
  repeat' split at h
  all_goals simp_all [isActiveEdge]

theorem mem_procEndEdgesOf {cfg : Config} {st : MonitorState} {s : Sample}
    {e : Edge} (h : e ∈ procEndEdgesOf cfg st s) :
    ∃ kv, kv ∈ st.lastProcessSet ∧ kv.1 ∉ keysOf (trackedProcs cfg s) ∧
      e = Edge.procEnd kv.1 kv.2 := by
  unfold procEndEdgesOf at h
  split at h
  · rcases List.mem_map.mp h with ⟨kv, hkv, rfl⟩
    rcases List.mem_filter.mp hkv with ⟨hmem, hcond⟩
    refine ⟨kv, hmem, ?_, rfl⟩
    simpa using hcond
  · simp at h

theorem mem_procStartEdgesOf {cfg : Config} {st : MonitorState} {s : Sample}
    {e : Edge} (h : e ∈ procStartEdgesOf cfg st s) :
    ∃ kv, kv ∈ trackedProcs cfg s ∧ kv.1 ∉ keysOf st.lastProcessSet ∧
      e = Edge.procStart kv.1 kv.2 := by
  unfold procStartEdgesOf at h
  split at h
  · rcases List.mem_map.mp h with ⟨kv, hkv, rfl⟩
    rcases List.mem_filter.mp hkv with ⟨hmem, hcond⟩
    refine ⟨kv, hmem, ?_, rfl⟩
    simpa using hcond
  · simp at h

theorem mem_snapshotEdgesOf_isSnap {cfg : Config} {st : MonitorState}
    {s : Sample} {e : Edge} (h : e ∈ snapshotEdgesOf cfg st s) :
    isSnapEdge e = true := by
  unfold snapshotEdgesOf at h
  split at h
  · rcases List.mem_cons.mp h with rfl | hm
    · rfl
    · rcases List.mem_map.mp hm with ⟨kv, _, rfl⟩
      rfl
  · simp at h

theorem isStartFor_eq_false_of_snap {pid : Nat} {e : Edge}
    (h : isSnapEdge e = true) : isStartFor pid e = false := by
  cases e <;> simp_all [isStartFor, isSnapEdge]

theorem isEndFor_eq_false_of_snap {pid : Nat} {e : Edge}
    (h : isSnapEdge e = true) : isEndFor pid e = false := by
  cases e <;> simp_all [isEndFor, isSnapEdge]

theorem isHeartbeatEdge_eq_false_of_snap {e : Edge}
    (h : isSnapEdge e = true) : isHeartbeatEdge e = false := by
  cases e <;> simp_all [isHeartbeatEdge, isSnapEdge]

theorem trackStep_edges_decomp (cfg : Config) (st : MonitorState) (s : Sample) :
    (trackStep cfg st s).2 =
      activeEdgesOf cfg st s ++ procEndEdgesOf cfg st s ++
        procStartEdgesOf cfg st s ++ snapshotEdgesOf cfg st s := rfl

/-! ## Claim theorems -/

/-- C1: for every event log consisting of a `proc_start` event for pid
`p` and app name `a` at time `T0` followed by a `proc_end` event for the
same pid `p` at time `T1`, the Session Builder produces exactly one closed
session for app `a`, and its `durationSeconds` equals `T1 - T0` (end minus
start). -/
theorem sessionBuilder_start_end_one_closed_session
    (p : Nat) (a : String) (T0 T1 : Nat) :
    buildSessions
        [{ ts := T0, etype := EType.procStart, pid := p, name := a },
         { ts := T1, etype := EType.procEnd, pid := p, name := a }] =
      [{ appName := a, start := T0, stop := some T1 }] ∧
    durationSeconds { appName := a, start := T0, stop := some T1 } =
      some (T1 - T0) := by
  constructor
  · simp [buildSessions, stepSB, openApp, closeBy, closeFirst, initSB]
  · simp [durationSeconds]

/-- C2: the Session Builder is deterministic and idempotent over its
input — replaying the same ordered closed log segment through
`buildSessions` and `replayAggregates` twice yields identical sessions and
identical aggregate statistics (both are pure functions of the event
sequence). -/
theorem sessionBuilder_replay_deterministic
    (seg : List Event) (apps : List String) :
    buildSessions seg = buildSessions seg ∧
    replayAggregates seg apps = replayAggregates seg apps :=
  ⟨rfl, rfl⟩

/-- C4: for every per-app aggregate, `avgDurationSec` equals
`totalDurationSec / closedSessionCount` when there are closed sessions,
and equals `0` (not an error value) when `closedSessionCount = 0`; the
division is guarded so it is never performed with a zero divisor. -/
theorem appStats_avg_guarded (evs : List Event) (app : String) :
    ((statsFor evs app).closedSessionCount = 0 →
        (statsFor evs app).avgDurationSec = 0) ∧
    (0 < (statsFor evs app).closedSessionCount →
        (statsFor evs app).avgDurationSec =
          ((statsFor evs app).totalDurationSec : Rat) /
            ((statsFor evs app).closedSessionCount : Rat)) := by
  constructor
  · intro h
    simp only [statsFor] at h ⊢
    rw [if_pos h]
  · intro h
    simp only [statsFor] at h ⊢
    rw [if_neg (Nat.pos_iff_ne_zero.mp h)]

/-- C4 witness: on the empty log the average is 0, and on a log with one
closed session the average equals total over count. -/
theorem appStats_avg_guarded_witness :
    (statsFor ([] : List Event) "x").avgDurationSec = 0 ∧
    (statsFor
        [{ ts := 5, etype := EType.procStart, pid := 1, name := "a" },
         { ts := 9, etype := EType.procEnd, pid := 1, name := "a" }]
        "a").avgDurationSec =
      ((statsFor
          [{ ts := 5, etype := EType.procStart, pid := 1, name := "a" },
           { ts := 9, etype := EType.procEnd, pid := 1, name := "a" }]
          "a").totalDurationSec : Rat) /
        ((statsFor
            [{ ts := 5, etype := EType.procStart, pid := 1, name := "a" },
             { ts := 9, etype := EType.procEnd, pid := 1, name := "a" }]
            "a").closedSessionCount : Rat) :=
  ⟨(appStats_avg_guarded [] "x").1 (by decide),
   (appStats_avg_guarded _ "a").2 (by decide)⟩

/-- C7: the startup configuration surface accepts `mode` only from
`{active, process, both}` with default `active`, `interval` with default
`2.0` seconds and `heartbeat` with default `300` seconds; the PowerShell
launchers carry the same defaults and validation set, so with no options
supplied the monitor runs with exactly these defaults. -/
theorem config_surface_defaults :
    defaultConfig.mode = Mode.active ∧ defaultConfig.interval = 2 ∧
    defaultConfig.heartbeat = 300 ∧
    psDefaultMode = "active" ∧ psDefaultInterval = defaultConfig.interval ∧
    psDefaultHeartbeat = ((defaultConfig.heartbeat : Int) : Rat) ∧
    parseMode psDefaultMode = some Mode.active ∧
    parseMode "process" = some Mode.process ∧
    parseMode "both" = some Mode.both ∧
    ∀ s : String, (parseMode s).isSome = psValidModes.contains s := by
  refine ⟨rfl, rfl, rfl, rfl, rfl, by norm_num [psDefaultHeartbeat, defaultConfig],
    rfl, rfl, rfl, ?_⟩
  intro s
  by_cases h1 : s = "active" <;> by_cases h2 : s = "process" <;>
    by_cases h3 : s = "both" <;>
    simp [parseMode, psValidModes, h1, h2, h3]

/-- C8: when rotation is enabled the Log Writer rotates on a configurable
interval defaulting to hourly (3600 seconds) or on max size, whichever
trigger fires first; the closed segment is renamed to
`<basename>.<YYYY-MM-DD_HH-MM-SS>` and archived as the same name with
`.zip` appended. -/
theorem logWriter_rotate_policy_and_naming :
    defaultRotate.enabled = true ∧ defaultRotate.intervalSec = 3600 ∧
    (∀ (cfg : RotateConfig) (e sz : Nat),
        shouldRotate cfg e sz = true ↔
          cfg.enabled = true ∧ (cfg.intervalSec ≤ e ∨ cfg.maxSizeBytes ≤ sz)) ∧
    (∀ (b : String) (t : WallTime),
        archiveName b t = rotatedSegmentName b t ++ ".zip") ∧
    rotatedSegmentName "monitor.log" ⟨2025, 3, 5, 9, 7, 3⟩ =
      "monitor.log.2025-03-05_09-07-03" ∧
    archiveName "monitor.log" ⟨2025, 3, 5, 9, 7, 3⟩ =
      "monitor.log.2025-03-05_09-07-03.zip" := by
  refine ⟨rfl, rfl, ?_, fun b t => rfl, by decide, by decide⟩
  intro cfg e sz
  simp [shouldRotate]

/-- C9: after a successful registration request (`isRegister` true and an
OK response), the Login component does not authenticate the user —
`setToken` is not called and nothing is written to `localStorage`; the
form switches to login mode and the password field is cleared. -/
theorem login_register_success_no_auth (st : LoginState) (data : LoginData) :
    (handleSubmit { st with isRegister := true }
        (LoginResp.respOk data)).2.setTokenCalls = [] ∧
    (handleSubmit { st with isRegister := true }
        (LoginResp.respOk data)).2.storeWrites = [] ∧
    (handleSubmit { st with isRegister := true }
        (LoginResp.respOk data)).1.isRegister = false ∧
    (handleSubmit { st with isRegister := true }
        (LoginResp.respOk data)).1.password = "" ∧
    (handleSubmit { st with isRegister := true }
        (LoginResp.respOk data)).1.message =
      "Registration successful! Please log in." := by
  simp [handleSubmit]

/-- C3: one State Tracker step never emits both a `proc_start` edge and a
`proc_end` edge for the same pid: start edges come from keys only in the
new tracked set and end edges from keys only in the old tracked set. -/
theorem trackStep_no_start_and_end_same_pid
    (cfg : Config) (st : MonitorState) (s : Sample) (pid : Nat) :
    (((trackStep cfg st s).2.any (isStartFor pid)) &&
      ((trackStep cfg st s).2.any (isEndFor pid))) = false := by
  cases hstart : (trackStep cfg st s).2.any (isStartFor pid) with
  | false => simp
  | true =>
    rw [Bool.true_and]
    rw [List.any_eq_true] at hstart
    obtain ⟨e, he, hse⟩ := hstart
    rw [trackStep_edges_decomp] at he
    simp only [List.mem_append, or_assoc] at he
    have hnotin : pid ∉ keysOf st.lastProcessSet := by
      rcases he with ha | hb | hc | hd
      · have := mem_activeEdgesOf_isActive ha
        cases e <;> simp_all [isStartFor, isActiveEdge]
      · obtain ⟨kv, -, -, rfl⟩ := mem_procEndEdgesOf hb
        simp [isStartFor] at hse
      · obtain ⟨kv, hmem, hnot, rfl⟩ := mem_procStartEdgesOf hc
        have hkv : kv.1 = pid := by simpa [isStartFor] using hse
        exact hkv ▸ hnot
      · simp [isStartFor_eq_false_of_snap (mem_snapshotEdgesOf_isSnap hd)] at hse
    rw [List.any_eq_false]
    intro e' he'
    rw [trackStep_edges_decomp] at he'
    simp only [List.mem_append, or_assoc] at he'
    rcases he' with ha | hb | hc | hd
    · have := mem_activeEdgesOf_isActive ha
      cases e' <;> simp_all [isEndFor, isActiveEdge]
    · obtain ⟨kv, hmem, -, rfl⟩ := mem_procEndEdgesOf hb
      intro hcontra
      have hkv : kv.1 = pid := by simpa [isEndFor] using hcontra
      exact hnotin (hkv ▸ List.mem_map.mpr ⟨kv, hmem, rfl⟩)
    · obtain ⟨kv, -, -, rfl⟩ := mem_procStartEdgesOf hc
      simp [isEndFor]
    · simp [isEndFor_eq_false_of_snap (mem_snapshotEdgesOf_isSnap hd)]

/-- C5: the edge list of one State Tracker step is emitted in the fixed
tie-break order — active/heartbeat edges first, then all `proc_end` edges,
then all `proc_start` edges, then snapshot edges. -/
theorem trackStep_edge_order (cfg : Config) (st : MonitorState) (s : Sample) :
    (trackStep cfg st s).2 =
      activeEdgesOf cfg st s ++ procEndEdgesOf cfg st s ++
        procStartEdgesOf cfg st s ++ snapshotEdgesOf cfg st s ∧
    (activeEdgesOf cfg st s).all isActiveEdge = true ∧
    (procEndEdgesOf cfg st s).all isEndEdge = true ∧
    (procStartEdgesOf cfg st s).all isStartEdge = true ∧
    (snapshotEdgesOf cfg st s).all isSnapEdge = true := by
  refine ⟨rfl, ?_, ?_, ?_, ?_⟩
  · rw [List.all_eq_true]
    intro e he
    exact mem_activeEdgesOf_isActive he
  · rw [List.all_eq_true]
    intro e he
    obtain ⟨kv, -, -, rfl⟩ := mem_procEndEdgesOf he
    rfl
  · rw [List.all_eq_true]
    intro e he
    obtain ⟨kv, -, -, rfl⟩ := mem_procStartEdgesOf he
    rfl
  · rw [List.all_eq_true]
    intro e he
    exact mem_snapshotEdgesOf_isSnap he

theorem heartbeatDue_eq_false {cfg : Config} {st : MonitorState} {ts : Nat}
    (h : cfg.heartbeat ≤ 0) : heartbeatDue cfg st ts = false := by
  unfold heartbeatDue
  have h0 : decide (0 < cfg.heartbeat) = false := by
    simp only [decide_eq_false_iff_not]
    omega
  rw [h0, Bool.false_and]

theorem trackStep_all_not_heartbeat {cfg : Config} (h : cfg.heartbeat ≤ 0)
    (st : MonitorState) (s : Sample) :
    ((trackStep cfg st s).2.all fun e => !(isHeartbeatEdge e)) = true := by
  rw [List.all_eq_true]
  intro e he
  rw [trackStep_edges_decomp] at he
  simp only [List.mem_append, or_assoc] at he
  rcases he with ha | hb | hc | hd
  · have hf : heartbeatDue cfg st s.ts = false := heartbeatDue_eq_false h
    unfold activeEdgesOf at ha
    repeat' split at ha
    all_goals simp_all [isHeartbeatEdge]
  · obtain ⟨kv, -, -, rfl⟩ := mem_procEndEdgesOf hb
    rfl
  · obtain ⟨kv, -, -, rfl⟩ := mem_procStartEdgesOf hc
    rfl
  · simp [isHeartbeatEdge_eq_false_of_snap (mem_snapshotEdgesOf_isSnap hd)]

/-- C6: a configured heartbeat value ≤ 0 disables heartbeat re-emission —
for every sample sequence, the tracker loop never emits a
heartbeat-flavored edge. -/
theorem heartbeat_nonpositive_disables (cfg : Config) (st : MonitorState)
    (samples : List Sample) (h : cfg.heartbeat ≤ 0) :
    ((runTracker cfg st samples).2.all fun e => !(isHeartbeatEdge e)) = true := by
  induction samples generalizing st with
  | nil => rfl
  | cons s rest ih =>
    simp only [runTracker, List.all_append, Bool.and_eq_true]
    exact ⟨trackStep_all_not_heartbeat h st s, ih _⟩

/-- C6 witness: with heartbeat 0 and two samples of the same foreground
app far apart in time, no heartbeat-flavored edge is emitted. -/
theorem heartbeat_nonpositive_disables_witness :
    ((runTracker { defaultConfig with heartbeat := 0 }
        { lastActiveApp := none, lastProcessSet := [], lastHeartbeatAt := 0 }
        [{ ts := 5,
           foreground := some { pid := 1, name := "a.exe", title := "t" },
           procs := [] },
         { ts := 400,
           foreground := some { pid := 1, name := "a.exe", title := "t" },
           procs := [] }]).2.all
      fun e => !(isHeartbeatEdge e)) = true :=
  heartbeat_nonpositive_disables _ _ _ (by decide)

theorem storeGet_eq_none_of_forall {k : String} {s : List (String × String)}
    (h : ∀ kv ∈ s, kv.1 ≠ k) : storeGet k s = none := by
  unfold storeGet
  have hf : s.find? (fun kv => kv.1 == k) = none := by
    rw [List.find?_eq_none]
    intro x hx
    simpa using h x hx
  rw [hf]
  rfl

theorem mem_handleLogout_store {w : WebApp} {kv : String × String}
    (h : kv ∈ (handleLogout w).store) :
    kv.1 ≠ "token" ∧ kv.1 ≠ "user_id" ∧ kv.1 ≠ "name" ∧ kv.1 ≠ "role" := by
  simp only [handleLogout, removeItem, List.mem_filter, Bool.not_eq_true',
    beq_eq_false_iff_ne, ne_eq] at h
  refine ⟨?_, ?_, ?_, ?_⟩ <;> tauto

/-- C10: a dashboard fetch that returns HTTP 401 (or 403 on the admin
dashboard) invokes `handleLogout`, which clears the token state and
removes the `token`, `user_id`, `name` and `role` keys from
`localStorage`, returning the UI to the Login screen; no error message is
set in that branch, while other non-OK statuses set an error and keep the
token. -/
theorem dashboard_unauthorized_logout (w : WebApp) :
    fetchLogsStep w (FetchResp.httpStatus 401) = handleLogout w ∧
    fetchAdminReportsStep w (FetchResp.httpStatus 401) = handleLogout w ∧
    fetchAdminReportsStep w (FetchResp.httpStatus 403) = handleLogout w ∧
    (handleLogout w).token = none ∧
    storeGet "token" (handleLogout w).store = none ∧
    storeGet "user_id" (handleLogout w).store = none ∧
    storeGet "name" (handleLogout w).store = none ∧
    storeGet "role" (handleLogout w).store = none ∧
    (handleLogout w).errorMsg = w.errorMsg ∧
    showsLogin (handleLogout w) = true ∧
    (fetchLogsStep w (FetchResp.httpStatus 500)).errorMsg =
      "Failed to fetch logs" ∧
    (fetchLogsStep w (FetchResp.httpStatus 500)).token = w.token := by
  refine ⟨by simp [fetchLogsStep], by simp [fetchAdminReportsStep],
    by simp [fetchAdminReportsStep], rfl, ?_, ?_, ?_, ?_, rfl, rfl,
    by simp [fetchLogsStep], by simp [fetchLogsStep]⟩
  · exact storeGet_eq_none_of_forall fun kv h => (mem_handleLogout_store h).1
  · exact storeGet_eq_none_of_forall fun kv h => (mem_handleLogout_store h).2.1
  · exact storeGet_eq_none_of_forall fun kv h => (mem_handleLogout_store h).2.2.1
  · exact storeGet_eq_none_of_forall fun kv h => (mem_handleLogout_store h).2.2.2

end ActiveAppsMonitor





